import Mathlib

/-!
Shallow embedding of the `changedetection` Home Assistant custom integration
(files `custom_components/changedetection/api.py` and
`custom_components/changedetection/__init__.py`) and proofs about it.

Conventions of the embedding:
* Python strings are Lean `String`s.
* Query parameters are association lists `List (String × String)` in insertion
  order (Python dicts preserve insertion order).
* The JSON values that flow through this integration's service payloads are
  flat (strings, booleans, integers, lists of strings, null), so they are
  modelled by the inductive `JVal`; a JSON request body is a top-level object
  `List (String × JVal)`.
* Exceptions are modelled by explicit error values (`PyException`), and a
  Python coroutine that may raise is a function into `Except`.
-/

deriving instance DecidableEq for Except

/-- Python's `needle in hay` on strings: `needle` occurs as a contiguous
substring of `hay`. -/
def pyIn (needle hay : String) : Bool :=
  decide (List.IsInfix needle.data hay.data)

/-- Source `s.rstrip("/")` from Python: remove every trailing `'/'` character
(used in `changedetectionClient.__init__`, api.py line 20). -/
def pyRstripSlash (s : String) : String :=
  String.mk ((s.data.reverse.dropWhile (fun c => c = '/')).reverse)

/-- A string made of `n` slashes, for stating trailing-slash claims. -/
def slashes (n : Nat) : String :=
  String.mk (List.replicate n '/')

/-- Python truthiness of an `Optional[str]` argument (`if tag:` in api.py):
true exactly when the value is present and non-empty. -/
def strTruthy : Option String → Bool
  | none => false
  | some t => !(t = "")

/-- Flat JSON values appearing in this integration's payloads. -/
inductive JVal where
  | null
  | bool (b : Bool)
  | str (s : String)
  | num (n : Int)
  | strList (xs : List String)
  deriving DecidableEq, Repr

/-- Python truthiness of a `JVal` (`if call.data.get(...):`). -/
def jvalTruthy : JVal → Bool
  | .null => false
  | .bool b => b
  | .str s => !(s = "")
  | .num n => !(n = 0)
  | .strList xs => !xs.isEmpty

/-- The body of an outbound HTTP request. -/
inductive Body where
  | empty
  | json (obj : List (String × JVal))
  | text (s : String)
  deriving DecidableEq, Repr

/-- An outbound HTTP request as built by the client: method, full URL,
query parameters in insertion order, and body. -/
structure Request where
  method : String
  url : String
  params : List (String × String)
  body : Body
  deriving DecidableEq, Repr

/-- URL construction of `changedetectionClient._request` (api.py line 34),
applied to a base URL already normalised in `__init__` (line 20):
`url = f"{self._base_url}/api/v1{path}"` with `self._base_url = base_url.rstrip("/")`. -/
def buildUrl (base_url path : String) : String :=
  pyRstripSlash base_url ++ "/api/v1" ++ path

/-- One client operation per public method of `changedetectionClient`
(api.py lines 57-245), with the arguments the method takes.
Optional string arguments are `Option String`; Python booleans are `Bool`.
The Python parameter `partial` of `search` is named `partialMatch` here. -/
inductive ClientOp where
  | list_watches (tag : Option String) (recheck_all : Bool)
  | create_watch (payload : List (String × JVal))
  | get_watch (uuid : String) (recheck : Bool) (paused : Option String) (muted : Option String)
  | update_watch (uuid : String) (payload : List (String × JVal))
  | delete_watch (uuid : String)
  | watch_history (uuid : String)
  | watch_snapshot (uuid : String) (timestamp : String) (html : Bool)
  | watch_diff (uuid from_ts to_ts format_ word_diff no_markup type_ changes_only ignore_whitespace removed added replaced : String)
  | watch_favicon (uuid : String)
  | list_tags
  | create_tag (payload : List (String × JVal))
  | get_tag (uuid : String) (muted : Option String) (recheck : Bool)
  | update_tag (uuid : String) (payload : List (String × JVal))
  | delete_tag (uuid : String)
  | get_notifications
  | add_notifications (urls : List String)
  | replace_notifications (urls : List String)
  | delete_notifications (urls : List String)
  | search (q : String) (tag : Option String) (partialMatch : Bool)
  | bulk_import (body : String) (tag_uuids : Option String) (tag : Option String) (proxy : Option String) (dedupe : Bool)
  | systeminfo
  deriving DecidableEq, Repr

/-- Helper shared by every operation: the request handed to `_request`
with method, resource path, query parameters and body. -/
def mkReq (base_url method path : String) (params : List (String × String)) (body : Body) : Request :=
  { method := method, url := buildUrl base_url path, params := params, body := body }

/-- The request each `changedetectionClient` method builds, translated
method by method from api.py lines 57-245 for a client constructed from
`base_url`.  Each case mirrors the Python body: conditional insertion of
query parameters in source order, JSON or text bodies as in the source. -/
def runOp (base_url : String) : ClientOp → Request
  | .list_watches tag recheck_all =>
      let params := (if strTruthy tag then [("tag", tag.getD "")] else [])
        ++ (if recheck_all then [("recheck_all", "1")] else [])
      mkReq base_url "GET" "/watch" params .empty
  | .create_watch payload =>
      mkReq base_url "POST" "/watch" [] (.json payload)
  | .get_watch uuid recheck paused muted =>
      let params := (if recheck then [("recheck", "true")] else [])
        ++ (if paused = some "paused" ∨ paused = some "unpaused"
            then [("paused", paused.getD "")] else [])
        ++ (if muted = some "muted" ∨ muted = some "unmuted"
            then [("muted", muted.getD "")] else [])
      mkReq base_url "GET" ("/watch/" ++ uuid) params .empty
  | .update_watch uuid payload =>
      mkReq base_url "PUT" ("/watch/" ++ uuid) [] (.json payload)
  | .delete_watch uuid =>
      mkReq base_url "DELETE" ("/watch/" ++ uuid) [] .empty
  | .watch_history uuid =>
      mkReq base_url "GET" ("/watch/" ++ uuid ++ "/history") [] .empty
  | .watch_snapshot uuid timestamp html =>
      let params := if html then [("html", "1")] else []
      mkReq base_url "GET" ("/watch/" ++ uuid ++ "/history/" ++ timestamp) params .empty
  | .watch_diff uuid from_ts to_ts format_ word_diff no_markup type_ changes_only ignore_whitespace removed added replaced =>
      mkReq base_url "GET" ("/watch/" ++ uuid ++ "/difference/" ++ from_ts ++ "/" ++ to_ts)
        [("format", format_), ("word_diff", word_diff), ("no_markup", no_markup),
         ("type", type_), ("changesOnly", changes_only),
         ("ignoreWhitespace", ignore_whitespace),
         ("removed", removed), ("added", added), ("replaced", replaced)] .empty
  | .watch_favicon uuid =>
      mkReq base_url "GET" ("/watch/" ++ uuid ++ "/favicon") [] .empty
  | .list_tags =>
      mkReq base_url "GET" "/tags" [] .empty
  | .create_tag payload =>
      mkReq base_url "POST" "/tag" [] (.json payload)
  | .get_tag uuid muted recheck =>
      let params := (if muted = some "muted" ∨ muted = some "unmuted"
            then [("muted", muted.getD "")] else [])
        ++ (if recheck then [("recheck", "true")] else [])
      mkReq base_url "GET" ("/tag/" ++ uuid) params .empty
  | .update_tag uuid payload =>
      mkReq base_url "PUT" ("/tag/" ++ uuid) [] (.json payload)
  | .delete_tag uuid =>
      mkReq base_url "DELETE" ("/tag/" ++ uuid) [] .empty
  | .get_notifications =>
      mkReq base_url "GET" "/notifications" [] .empty
  | .add_notifications urls =>
      mkReq base_url "POST" "/notifications" [] (.json [("notification_urls", .strList urls)])
  | .replace_notifications urls =>
      mkReq base_url "PUT" "/notifications" [] (.json [("notification_urls", .strList urls)])
  | .delete_notifications urls =>
      mkReq base_url "DELETE" "/notifications" [] (.json [("notification_urls", .strList urls)])
  | .search q tag partialMatch =>
      let params := [("q", q)]
        ++ (if strTruthy tag then [("tag", tag.getD "")] else [])
        ++ (if partialMatch then [("partial", "1")] else [])
      mkReq base_url "GET" "/search" params .empty
  | .bulk_import body tag_uuids tag proxy dedupe =>
      let params := (if strTruthy tag_uuids then [("tag_uuids", tag_uuids.getD "")] else [])
        ++ (if strTruthy tag then [("tag", tag.getD "")] else [])
        ++ (if strTruthy proxy then [("proxy", proxy.getD "")] else [])
        ++ [("dedupe", if dedupe then "true" else "false")]
      mkReq base_url "POST" "/import" params (.text body)
  | .systeminfo =>
      mkReq base_url "GET" "/systeminfo" [] .empty

/-- An HTTP response as seen by `_request`: status code, the value of the
`Content-Type` header (`""` when absent, matching `resp.headers.get("Content-Type", "")`),
and the raw body octets (kept abstract as a `String` of bytes). -/
structure Response where
  status : Nat
  contentType : String
  body : String
  deriving DecidableEq, Repr

/-- What the network did for one attempt: delivered a response, failed at the
transport layer (`aiohttp.ClientError`: connection refused, DNS failure, ...),
or exceeded the 30-second `async_timeout.timeout(30)` limit
(`asyncio.TimeoutError`). -/
inductive Transport where
  | response (r : Response)
  | clientError (msg : String)
  | timedOut
  deriving DecidableEq, Repr

/-- Python exceptions that can escape `_request`. `apiError` is the domain
error `changedetectionApiError`; `nameError n` is a `NameError` raised by
evaluating an unbound name `n`. -/
inductive PyException where
  | apiError (msg : String)
  | nameError (n : String)
  deriving DecidableEq, Repr

/-- A successfully returned Python value from `_request`: either the body
decoded as structured data by `resp.json()`, or the body decoded as a `str`
by `resp.text()`.  The constructor `bytesVal` represents a Python `bytes`
object; `_request` as written never produces it (it has no `resp.read()` call),
it exists so that statements can distinguish `str` from `bytes` results. -/
inductive Decoded where
  | jsonVal (rawBody : String)
  | textVal (body : String)
  | bytesVal (body : String)
  deriving DecidableEq, Repr

/-- Exceptions that can propagate out of the `try` body of `_request`
(api.py lines 37-49): the `changedetectionApiError` raised on line 42 for a
status at or above 400, an `aiohttp.ClientError` from the transport
(connection refused, DNS), or the `asyncio.TimeoutError` raised when the
30-second `async_timeout.timeout(30)` limit expires. -/
inductive TryEscape where
  | domainError (msg : String)
  | clientError (msg : String)
  | timeoutError
  deriving DecidableEq, Repr

/-- The `try` body of `changedetectionClient._request` (api.py lines 37-49),
given what the transport did.  Line by line:
* line 40: `if resp.status >= 400:` raise `changedetectionApiError` with
  message `f"API error {resp.status} for {url}: {text}"` (lines 41-44);
* lines 46-48: decode with `resp.json()` when `"application/json" in content_type`;
* line 49: otherwise return `await resp.text()`. -/
def tryBody (url : String) : Transport → Except TryEscape Decoded
  | .response r =>
      if r.status ≥ 400 then
        .error (.domainError ("API error " ++ toString r.status ++ " for "
          ++ url ++ ": " ++ r.body))
      else if pyIn "application/json" r.contentType then
        .ok (.jsonVal r.body)
      else
        .ok (.textVal r.body)
  | .clientError msg =>
      .error (.clientError msg)
  | .timedOut =>
      .error .timeoutError

/-- The except-clause search of `_request` (api.py lines 50-53) applied to an
exception escaping the `try` body:
* lines 50-51: `except aiohttp.ClientError as err:` matches only the
  transport failures and re-raises the domain error `f"Connection error: {err}"`
  from within the handler (later clause headers are not evaluated);
* lines 52-53: `except asyncio.TimeoutError as err:` — api.py never imports
  `asyncio` (its imports are `aiohttp`, `async_timeout`, `typing`), so for any
  exception that the first clause does not match — the timeout, but also the
  `changedetectionApiError` raised on line 42, which is not an
  `aiohttp.ClientError` — evaluating the clause header expression
  `asyncio.TimeoutError` raises `NameError: name 'asyncio' is not defined`,
  and that `NameError` is what escapes `_request` (the original exception
  survives only as its context). -/
def exceptClauses : TryEscape → PyException
  | .clientError m => .apiError ("Connection error: " ++ m)
  | _ => .nameError "asyncio"

/-- Source `changedetectionClient._request` (api.py lines 32-53): run the
`try` body and, when it raises, the except-clause search. -/
def request_outcome (url : String) (t : Transport) : Except PyException Decoded :=
  match tryBody url t with
  | .ok d => .ok d
  | .error e => .error (exceptClauses e)

/-- A full client operation end to end: build the request for `op` (which
computes `url = f"{base}/api/v1{path}"`), then run the `_request` response
handling on what the transport did for that request. -/
def runClientOp (base_url : String) (op : ClientOp) (t : Transport) : Except PyException Decoded :=
  request_outcome (runOp base_url op).url t

/-! ## The coordinator and setup (`__init__.py`) -/

/-- The outcomes of the four client calls of one poll round, in the order
`async_update_data` performs them (`__init__.py` lines 89-92). -/
structure FetchRound where
  watches : Except PyException Decoded
  tags : Except PyException Decoded
  systeminfo : Except PyException Decoded
  notifications : Except PyException Decoded
  deriving DecidableEq, Repr

/-- The coordinator's cached snapshot: the dict returned by
`async_update_data` (`__init__.py` lines 96-101). -/
structure Snapshot where
  watches : Decoded
  tags : Decoded
  systeminfo : Decoded
  notifications : Decoded
  deriving DecidableEq, Repr

/-- Errors escaping `async_update_data`: `UpdateFailed` for a caught
`changedetectionApiError`, or an uncaught exception of another type. -/
inductive UpdateError where
  | updateFailed (msg : String)
  | uncaught (e : PyException)
  deriving DecidableEq, Repr

/-- How an exception raised inside the `try` of `async_update_data` escapes
(`__init__.py` lines 93-94): the domain error is re-raised as
`UpdateFailed("Error communicating with API: " + message)`; any other
exception type is not caught. -/
def toUpdateError : PyException → UpdateError
  | .apiError m => .updateFailed ("Error communicating with API: " ++ m)
  | e => .uncaught e

/-- The `try`/`except changedetectionApiError` of `async_update_data`
(`__init__.py` lines 88-94) applied to one awaited client call. -/
def liftFetch : Except PyException Decoded → Except UpdateError Decoded
  | .ok d => .ok d
  | .error e => .error (toUpdateError e)

/-- Source `async_update_data` (`__init__.py` lines 86-101): await the four client
calls in order inside one `try`, and on success return the dict holding all
four results of this round. -/
def async_update_data (r : FetchRound) : Except UpdateError Snapshot := do
  let w ← liftFetch r.watches
  let t ← liftFetch r.tags
  let s ← liftFetch r.systeminfo
  let n ← liftFetch r.notifications
  return { watches := w, tags := t, systeminfo := s, notifications := n }

/-- The coordinator's observable state: its cached `data` and its
`last_update_success` flag. -/
structure CoordState where
  data : Option Snapshot
  last_update_success : Bool
  deriving DecidableEq, Repr

/-- Modelled from the spec: one refresh of the host framework's
`DataUpdateCoordinator` (the framework is not part of this repository), which
awaits `async_update_data` and then, on the single cooperative scheduler,
either stores the returned snapshot whole or records the failure — spec §4.2:
"{success: snapshot replaced, ...} or {failure: prior snapshot retained,
failure surfaced to subscribers as update failed}". -/
def coordinator_refresh (st : CoordState) (r : FetchRound) : CoordState :=
  match async_update_data r with
  | .ok s => { data := some s, last_update_success := true }
  | .error _ => { st with last_update_success := false }

/-- The parts of the Home Assistant world that `async_setup_entry` mutates:
whether `hass.data[DOMAIN][entry.entry_id]` was populated (lines 113-117),
whether the entity platforms were forwarded (line 119, which creates the
entities), whether the services were registered (lines 435-506), and the
coordinator data visible to readers. -/
structure HassWorld where
  storedEntry : Bool
  entitiesCreated : Bool
  servicesRegistered : Bool
  coordData : Option Snapshot
  deriving DecidableEq, Repr

/-- The world before setup runs: nothing stored, no entities, no services. -/
def initialWorld : HassWorld :=
  { storedEntry := false, entitiesCreated := false,
    servicesRegistered := false, coordData := none }

/-- Result of `async_setup_entry`: returned `True` with the resulting world,
or aborted by the exception of the first refresh, leaving the world as it was. -/
inductive SetupResult where
  | ready (w : HassWorld)
  | notReady (w : HassWorld)
  deriving DecidableEq, Repr

/-- Source `async_setup_entry` (`__init__.py` lines 77-508).  Line 111 awaits
`coordinator.async_config_entry_first_refresh()`; modelled from the spec for
the framework half: that call performs one refresh and raises
(`ConfigEntryNotReady`) when it fails — spec §4.2: "if that first fetch
fails, setup itself fails".  Only when it returns do lines 113-119 store the
entry data and forward the entity platforms, and lines 122-506 register the
services, before line 508 returns `True`. -/
def async_setup_entry (w : HassWorld) (firstRound : FetchRound) : SetupResult :=
  let coord := coordinator_refresh { data := none, last_update_success := true } firstRound
  if coord.last_update_success then
    .ready { storedEntry := true, entitiesCreated := true,
             servicesRegistered := true, coordData := coord.data }
  else
    .notReady w

/-! ## Service handlers (`__init__.py` lines 122-350)

A service call's validated data is a `CallData` (schema validation is the
framework's job; the handlers read it with `call.data[k]`, `call.data.get`,
`k in call.data`).  A handler is modelled as the sequence of observable
actions it performs, given the outcome of its one client call.  Each handler
takes an extra `refreshFailed : Bool`: modelled from the spec, the framework's
`coordinator.async_request_refresh()` does not raise when the refresh it
requests fails (spec §5: "if the refresh fails, the write still stands"), so
no handler's behaviour may depend on it. -/

/-- Validated service-call data. -/
def CallData := List (String × JVal)

/-- Source `call.data[k]` for a key the schema requires (null if absent). -/
def getData (d : CallData) (k : String) : JVal :=
  (List.lookup k d).getD .null

/-- Source `call.data[k]` for a key the schema requires to be a string. -/
def getStr (d : CallData) (k : String) : String :=
  match List.lookup k d with
  | some (.str s) => s
  | _ => ""

/-- Source `call.data.get(k, default)` for a string-valued key. -/
def getStrD (d : CallData) (k dflt : String) : String :=
  match List.lookup k d with
  | some (.str s) => s
  | _ => dflt

/-- Source `call.data.get(k)` for an optional string-valued key. -/
def getOptStr (d : CallData) (k : String) : Option String :=
  match List.lookup k d with
  | some (.str s) => some s
  | _ => none

/-- Source `call.data.get(k, default)` for a boolean-valued key. -/
def getBoolD (d : CallData) (k : String) (dflt : Bool) : Bool :=
  match List.lookup k d with
  | some (.bool b) => b
  | _ => dflt

/-- Source `k in call.data`. -/
def hasKey (d : CallData) (k : String) : Bool :=
  (List.lookup k d).isSome

/-- The observable actions a service handler performs, in order. -/
inductive SvcAction where
  | clientCall (req : Request)
  | requestRefresh
  | fireEvent (event : String)
  | raiseHAError (msg : String)
  | uncaughtRaise (e : PyException)
  deriving DecidableEq, Repr

/-- The shared `try: await client...; await coordinator.async_request_refresh()
except changedetectionApiError as err: raise HomeAssistantError(f"Failed to
{opName}: {err}")` shape of the write handlers. -/
def writeActions (req : Request) (res : Except PyException Decoded) (opName : String) : List SvcAction :=
  match res with
  | .ok _ => [.clientCall req, .requestRefresh]
  | .error (.apiError m) => [.clientCall req, .raiseHAError ("Failed to " ++ opName ++ ": " ++ m)]
  | .error e => [.clientCall req, .uncaughtRaise e]

/-- As `writeActions`, but with no refresh after the client call
(the shape of the two recheck handlers). -/
def noRefreshActions (req : Request) (res : Except PyException Decoded) (opName : String) : List SvcAction :=
  match res with
  | .ok _ => [.clientCall req]
  | .error (.apiError m) => [.clientCall req, .raiseHAError ("Failed to " ++ opName ++ ": " ++ m)]
  | .error e => [.clientCall req, .uncaughtRaise e]

/-- As `writeActions`, but firing an event instead of requesting a refresh
(the shape of `handle_get_snapshot`, `handle_get_diff`, `handle_search`). -/
def eventActions (req : Request) (res : Except PyException Decoded) (event opName : String) : List SvcAction :=
  match res with
  | .ok _ => [.clientCall req, .fireEvent event]
  | .error (.apiError m) => [.clientCall req, .raiseHAError ("Failed to " ++ opName ++ ": " ++ m)]
  | .error e => [.clientCall req, .uncaughtRaise e]

/-- The payload built by `handle_create_watch` (`__init__.py` lines 124-137):
the required url, then each optional key appended in source order when present. -/
def createWatchPayload (d : CallData) : List (String × JVal) :=
  [("url", getData d "url")]
    ++ (if hasKey d "title" then [("title", getData d "title")] else [])
    ++ (if hasKey d "tag" then [("tag", getData d "tag")] else [])
    ++ (if hasKey d "tags" then [("tags", getData d "tags")] else [])
    ++ (if hasKey d "method" then [("method", getData d "method")] else [])
    ++ (if hasKey d "fetch_backend" then [("fetch_backend", getData d "fetch_backend")] else [])
    ++ (if hasKey d "processor" then [("processor", getData d "processor")] else [])

/-- Source `handle_create_watch` (`__init__.py` lines 122-143). -/
def handle_create_watch (base : String) (d : CallData) (res : Except PyException Decoded) (refreshFailed : Bool) : List SvcAction :=
  let _ := refreshFailed
  writeActions (runOp base (.create_watch (createWatchPayload d))) res "create watch"

/-- Source `handle_delete_watch` (`__init__.py` lines 145-151). -/
def handle_delete_watch (base : String) (d : CallData) (res : Except PyException Decoded) (refreshFailed : Bool) : List SvcAction :=
  let _ := refreshFailed
  writeActions (runOp base (.delete_watch (getStr d "uuid"))) res "delete watch"

/-- Source `handle_update_watch` (`__init__.py` lines 153-162): the payload is the
call data without the uuid key. -/
def handle_update_watch (base : String) (d : CallData) (res : Except PyException Decoded) (refreshFailed : Bool) : List SvcAction :=
  let _ := refreshFailed
  let payload := List.filter (fun kv => !(kv.1 = "uuid")) d
  writeActions (runOp base (.update_watch (getStr d "uuid") payload)) res "update watch"

/-- Source `handle_recheck_watch` (`__init__.py` lines 164-169): one
`client.get_watch(uuid, recheck=True)` call; no refresh is requested. -/
def handle_recheck_watch (base : String) (d : CallData) (res : Except PyException Decoded) (refreshFailed : Bool) : List SvcAction :=
  let _ := refreshFailed
  noRefreshActions (runOp base (.get_watch (getStr d "uuid") true none none)) res "recheck watch"

/-- Source `handle_pause_watch` (`__init__.py` lines 171-177). -/
def handle_pause_watch (base : String) (d : CallData) (res : Except PyException Decoded) (refreshFailed : Bool) : List SvcAction :=
  let _ := refreshFailed
  writeActions (runOp base (.get_watch (getStr d "uuid") false (some "paused") none)) res "pause watch"

/-- Source `handle_unpause_watch` (`__init__.py` lines 179-185). -/
def handle_unpause_watch (base : String) (d : CallData) (res : Except PyException Decoded) (refreshFailed : Bool) : List SvcAction :=
  let _ := refreshFailed
  writeActions (runOp base (.get_watch (getStr d "uuid") false (some "unpaused") none)) res "unpause watch"

/-- Source `handle_mute_watch` (`__init__.py` lines 187-193). -/
def handle_mute_watch (base : String) (d : CallData) (res : Except PyException Decoded) (refreshFailed : Bool) : List SvcAction :=
  let _ := refreshFailed
  writeActions (runOp base (.get_watch (getStr d "uuid") false none (some "muted"))) res "mute watch"

/-- Source `handle_unmute_watch` (`__init__.py` lines 195-201). -/
def handle_unmute_watch (base : String) (d : CallData) (res : Except PyException Decoded) (refreshFailed : Bool) : List SvcAction :=
  let _ := refreshFailed
  writeActions (runOp base (.get_watch (getStr d "uuid") false none (some "unmuted"))) res "unmute watch"

/-- Source `handle_get_snapshot` (`__init__.py` lines 203-215): read-only, fires
`changedetection_snapshot_received` on success. -/
def handle_get_snapshot (base : String) (d : CallData) (res : Except PyException Decoded) (refreshFailed : Bool) : List SvcAction :=
  let _ := refreshFailed
  eventActions
    (runOp base (.watch_snapshot (getStr d "uuid") (getStrD d "timestamp" "latest") false))
    res "changedetection_snapshot_received" "get snapshot"

/-- Source `handle_get_diff` (`__init__.py` lines 217-237): reads uuid and the
defaulted from/to/format/word_diff values, then calls
`client.watch_diff(uuid, from_ts, to_ts, format_, word_diff)` — the remaining
seven `watch_diff` parameters keep their Python default values
(api.py lines 118-125) — and fires `changedetection_diff_received` on success. -/
def handle_get_diff (base : String) (d : CallData) (res : Except PyException Decoded) (refreshFailed : Bool) : List SvcAction :=
  let _ := refreshFailed
  let uuid := getStr d "uuid"
  let from_ts := getStrD d "from_timestamp" "previous"
  let to_ts := getStrD d "to_timestamp" "latest"
  let format_ := getStrD d "format" "htmlcolor"
  let word_diff := if jvalTruthy ((List.lookup "word_diff" d).getD (.bool false)) then "true" else "false"
  eventActions
    (runOp base (.watch_diff uuid from_ts to_ts format_ word_diff
      "false" "diffLines" "true" "false" "true" "true" "true"))
    res "changedetection_diff_received" "get diff"

/-- The payload built by `handle_create_tag` (`__init__.py` lines 241-246). -/
def createTagPayload (d : CallData) : List (String × JVal) :=
  [("title", getData d "title")]
    ++ (if hasKey d "notification_urls" then [("notification_urls", getData d "notification_urls")] else [])
    ++ (if hasKey d "notification_muted" then [("notification_muted", getData d "notification_muted")] else [])

/-- Source `handle_create_tag` (`__init__.py` lines 239-252). -/
def handle_create_tag (base : String) (d : CallData) (res : Except PyException Decoded) (refreshFailed : Bool) : List SvcAction :=
  let _ := refreshFailed
  writeActions (runOp base (.create_tag (createTagPayload d))) res "create tag"

/-- Source `handle_delete_tag` (`__init__.py` lines 254-260). -/
def handle_delete_tag (base : String) (d : CallData) (res : Except PyException Decoded) (refreshFailed : Bool) : List SvcAction :=
  let _ := refreshFailed
  writeActions (runOp base (.delete_tag (getStr d "uuid"))) res "delete tag"

/-- Source `handle_update_tag` (`__init__.py` lines 262-271). -/
def handle_update_tag (base : String) (d : CallData) (res : Except PyException Decoded) (refreshFailed : Bool) : List SvcAction :=
  let _ := refreshFailed
  let payload := List.filter (fun kv => !(kv.1 = "uuid")) d
  writeActions (runOp base (.update_tag (getStr d "uuid") payload)) res "update tag"

/-- Source `handle_recheck_tag` (`__init__.py` lines 273-278): one
`client.get_tag(uuid, recheck=True)` call; no refresh is requested. -/
def handle_recheck_tag (base : String) (d : CallData) (res : Except PyException Decoded) (refreshFailed : Bool) : List SvcAction :=
  let _ := refreshFailed
  noRefreshActions (runOp base (.get_tag (getStr d "uuid") none true)) res "recheck tag"

/-- Source `handle_mute_tag` (`__init__.py` lines 280-286). -/
def handle_mute_tag (base : String) (d : CallData) (res : Except PyException Decoded) (refreshFailed : Bool) : List SvcAction :=
  let _ := refreshFailed
  writeActions (runOp base (.get_tag (getStr d "uuid") (some "muted") false)) res "mute tag"

/-- Source `handle_unmute_tag` (`__init__.py` lines 288-294). -/
def handle_unmute_tag (base : String) (d : CallData) (res : Except PyException Decoded) (refreshFailed : Bool) : List SvcAction :=
  let _ := refreshFailed
  writeActions (runOp base (.get_tag (getStr d "uuid") (some "unmuted") false)) res "unmute tag"

/-- Source `handle_search` (`__init__.py` lines 296-308): read-only, fires
`changedetection_search_results` on success. -/
def handle_search (base : String) (d : CallData) (res : Except PyException Decoded) (refreshFailed : Bool) : List SvcAction :=
  let _ := refreshFailed
  eventActions (runOp base (.search (getStr d "query") (getOptStr d "tag") false))
    res "changedetection_search_results" "search"

/-- Source `handle_bulk_import` (`__init__.py` lines 310-326): on success the refresh
request comes before the `changedetection_import_completed` event. -/
def handle_bulk_import (base : String) (d : CallData) (res : Except PyException Decoded) (refreshFailed : Bool) : List SvcAction :=
  let _ := refreshFailed
  let req := runOp base (.bulk_import (getStr d "urls_text") (getOptStr d "tag_uuids")
    (getOptStr d "tag") (getOptStr d "proxy") (getBoolD d "dedupe" true))
  match res with
  | .ok _ => [.clientCall req, .requestRefresh, .fireEvent "changedetection_import_completed"]
  | .error (.apiError m) => [.clientCall req, .raiseHAError ("Failed to bulk import: " ++ m)]
  | .error e => [.clientCall req, .uncaughtRaise e]

/-- Source `handle_add_notifications` (`__init__.py` lines 328-334). -/
def handle_add_notifications (base : String) (urls : List String) (res : Except PyException Decoded) (refreshFailed : Bool) : List SvcAction :=
  let _ := refreshFailed
  writeActions (runOp base (.add_notifications urls)) res "add notifications"

/-- Source `handle_replace_notifications` (`__init__.py` lines 336-342). -/
def handle_replace_notifications (base : String) (urls : List String) (res : Except PyException Decoded) (refreshFailed : Bool) : List SvcAction :=
  let _ := refreshFailed
  writeActions (runOp base (.replace_notifications urls)) res "replace notifications"

/-- Source `handle_delete_notifications` (`__init__.py` lines 344-350). -/
def handle_delete_notifications (base : String) (urls : List String) (res : Except PyException Decoded) (refreshFailed : Bool) : List SvcAction :=
  let _ := refreshFailed
  writeActions (runOp base (.delete_notifications urls)) res "delete notifications"



/-! ## Spec-side definitions for refinement comparison -/

/-- Resource path table following the words of spec section 6 for each client
operation, with one amendment forced by the source: listing tags targets
`/tags` (api.py line 151), where the spec lists `/tag`.  Everything else is
the path the spec lists. -/
def specResourcePath : ClientOp → String
  | .list_watches _ _ => "/watch"
  | .create_watch _ => "/watch"
  | .get_watch uuid _ _ _ => "/watch/" ++ uuid
  | .update_watch uuid _ => "/watch/" ++ uuid
  | .delete_watch uuid => "/watch/" ++ uuid
  | .watch_history uuid => "/watch/" ++ uuid ++ "/history"
  | .watch_snapshot uuid timestamp _ => "/watch/" ++ uuid ++ "/history/" ++ timestamp
  | .watch_diff uuid from_ts to_ts _ _ _ _ _ _ _ _ _ =>
      "/watch/" ++ uuid ++ "/difference/" ++ from_ts ++ "/" ++ to_ts
  | .watch_favicon uuid => "/watch/" ++ uuid ++ "/favicon"
  | .list_tags => "/tags"
  | .create_tag _ => "/tag"
  | .get_tag uuid _ _ => "/tag/" ++ uuid
  | .update_tag uuid _ => "/tag/" ++ uuid
  | .delete_tag uuid => "/tag/" ++ uuid
  | .get_notifications => "/notifications"
  | .add_notifications _ => "/notifications"
  | .replace_notifications _ => "/notifications"
  | .delete_notifications _ => "/notifications"
  | .search _ _ _ => "/search"
  | .bulk_import _ _ _ _ _ => "/import"
  | .systeminfo => "/systeminfo"

/-! ## Concrete instances used to exercise the theorems -/

/-- A snapshot standing for the data of an earlier successful poll. -/
def oldSnap : Snapshot :=
  { watches := .jsonVal "w0", tags := .jsonVal "t0",
    systeminfo := .jsonVal "s0", notifications := .jsonVal "n0" }

/-- A fetch round whose first call raised the domain error. -/
def failRound : FetchRound :=
  { watches := .error (.apiError "boom"), tags := .ok (.jsonVal "t1"),
    systeminfo := .ok (.jsonVal "s1"), notifications := .ok (.jsonVal "n1") }

/-- A fetch round in which all four calls succeeded. -/
def okRound : FetchRound :=
  { watches := .ok (.jsonVal "w1"), tags := .ok (.jsonVal "t1"),
    systeminfo := .ok (.jsonVal "s1"), notifications := .ok (.jsonVal "n1") }

/-- The snapshot produced by `okRound`. -/
def okSnap : Snapshot :=
  { watches := .jsonVal "w1", tags := .jsonVal "t1",
    systeminfo := .jsonVal "s1", notifications := .jsonVal "n1" }

/-- A first fetch round at setup whose initial `list_watches` call failed at
the transport layer with a connection error. -/
def connRefusedRound : FetchRound :=
  { watches := runClientOp "http://h" (.list_watches none false) (.clientError "Connection refused"),
    tags := .ok (.jsonVal "t1"), systeminfo := .ok (.jsonVal "s1"),
    notifications := .ok (.jsonVal "n1") }

/-! ## Helper lemmas -/

/-- Dropping leading slash characters ignores a block of leading slashes. -/
theorem dropWhile_slash_replicate (n : Nat) (xs : List Char) :
    List.dropWhile (fun c => c = '/') (List.replicate n '/' ++ xs)
      = List.dropWhile (fun c => c = '/') xs := by
  induction n with
  | zero => simp
  | succ k ih => simp [List.replicate_succ, List.dropWhile, ih]

/-- Stripping trailing slashes absorbs appended trailing slashes. -/
theorem pyRstripSlash_append_slashes (u : String) (n : Nat) :
    pyRstripSlash (u ++ slashes n) = pyRstripSlash u := by
  have hdata : (u ++ slashes n).data = u.data ++ List.replicate n '/' := by
    simp [slashes, String.data_append]
  simp [pyRstripSlash, hdata, List.reverse_append, dropWhile_slash_replicate]

/-- Characterisation of a successful poll: `async_update_data` returns a
snapshot exactly when all four fetches of the round succeeded, and then each
snapshot component is the decoded result of the corresponding fetch. -/
theorem async_update_data_ok_iff (r : FetchRound) (s : Snapshot) :
    async_update_data r = .ok s ↔
      r.watches = .ok s.watches ∧ r.tags = .ok s.tags ∧
      r.systeminfo = .ok s.systeminfo ∧ r.notifications = .ok s.notifications := by
  obtain ⟨w, t, si, n⟩ := r
  obtain ⟨sw, st', ssi, sn⟩ := s
  cases w <;> cases t <;> cases si <;> cases n <;>
    simp [async_update_data, liftFetch, Except.bind, bind, pure, Except.pure]


/-! ## Claim theorems -/

/-- C1, counterexample: the claim fails in both directions at concrete
inputs.  First, the non-2xx status 301 does not raise at all — `_request`
raises only for statuses at or above 400 (api.py line 40) and decodes and
returns the 301 payload.  Second, the status 404, for which line 42 does
construct the domain error carrying status and body, does not raise
`changedetectionApiError` either: the raised domain error is no
`aiohttp.ClientError`, so the except-clause search reaches the header
`asyncio.TimeoutError` of line 52 and what escapes is `NameError` for the
never-imported name `asyncio`. -/
theorem c1_non2xx_counterexample :
    (¬(200 ≤ 301 ∧ 301 ≤ 299)
      ∧ request_outcome "http://h/api/v1/systeminfo"
          (.response { status := 301, contentType := "application/json", body := "redirected" })
        = .ok (.jsonVal "redirected"))
    ∧ (request_outcome "http://h/api/v1/watch/x"
          (.response { status := 404, contentType := "text/html", body := "not found" })
        = .error (.nameError "asyncio")
      ∧ ∀ m, request_outcome "http://h/api/v1/watch/x"
          (.response { status := 404, contentType := "text/html", body := "not found" })
          ≠ .error (.apiError m)) := by
  refine ⟨⟨by decide, by decide⟩, by decide, fun m h => ?_⟩
  simp [request_outcome, tryBody, exceptClauses] at h

/-- C1, amended: for every response with status at or above 400, line 42
constructs the domain error message carrying the status and the response
body and raises, so no payload — decoded or partial — is ever returned for
such a response; but because api.py never imports `asyncio`, what escapes
`_request` is `NameError` from the line-52 clause header, not
`changedetectionApiError`.  Every response with status below 400 (2xx, but
also 1xx and 3xx) is decoded and returned instead. -/
theorem c1_amended_ge400_raises (url : String) (r : Response) :
    (r.status ≥ 400 →
      tryBody url (.response r)
        = .error (.domainError ("API error " ++ toString r.status ++ " for "
            ++ url ++ ": " ++ r.body))
      ∧ request_outcome url (.response r) = .error (.nameError "asyncio")
      ∧ ∀ d, request_outcome url (.response r) ≠ .ok d)
    ∧ (r.status < 400 →
      request_outcome url (.response r)
        = .ok (if pyIn "application/json" r.contentType
               then .jsonVal r.body else .textVal r.body)) := by
  constructor
  · intro h
    refine ⟨by simp [tryBody, h], by simp [request_outcome, tryBody, exceptClauses, h],
      fun d hd => ?_⟩
    simp [request_outcome, tryBody, exceptClauses, h] at hd
  · intro h
    have h4 : ¬ r.status ≥ 400 := by omega
    by_cases hc : pyIn "application/json" r.contentType <;>
      simp [request_outcome, tryBody, if_neg h4, hc]

/-- Witness for the amended C1 theorem: a 404 with body constructs the domain
error message with status and body, escapes as `NameError`, and returns no
payload; a 200 JSON response is decoded. -/
theorem c1_amended_ge400_raises_witness :
    (tryBody "http://h/api/v1/watch/x"
        (.response { status := 404, contentType := "text/html", body := "not found" })
      = .error (.domainError "API error 404 for http://h/api/v1/watch/x: not found")
      ∧ request_outcome "http://h/api/v1/watch/x"
          (.response { status := 404, contentType := "text/html", body := "not found" })
        = .error (.nameError "asyncio")
      ∧ ∀ d, request_outcome "http://h/api/v1/watch/x"
          (.response { status := 404, contentType := "text/html", body := "not found" })
          ≠ .ok d)
    ∧ request_outcome "http://h/api/v1/systeminfo"
        (.response { status := 200, contentType := "application/json", body := "payload" })
      = .ok (.jsonVal "payload") :=
  ⟨(c1_amended_ge400_raises "http://h/api/v1/watch/x"
      { status := 404, contentType := "text/html", body := "not found" }).1 (by decide),
   (c1_amended_ge400_raises "http://h/api/v1/systeminfo"
      { status := 200, contentType := "application/json", body := "payload" }).2 (by decide)⟩

/-- C2: `_request` translates `aiohttp.ClientError` transport failures
(connection refused, DNS) into the domain error, but a failure of the
30-second timeout escapes as `NameError`, because api.py never imports
`asyncio` (its imports are `aiohttp`, `async_timeout`, `typing`) and so the
clause `except asyncio.TimeoutError` on line 52 evaluates the unbound name
`asyncio` when a timeout propagates to it.  So the claim that no transport
failure escapes as another exception type fails at the timeout input. -/
theorem c2_timeout_escapes_as_nameError :
    (∀ url m, request_outcome url (.clientError m)
        = .error (.apiError ("Connection error: " ++ m)))
    ∧ request_outcome "http://h/api/v1/watch" .timedOut
        = .error (.nameError "asyncio")
    ∧ (∀ m, request_outcome "http://h/api/v1/watch" .timedOut
        ≠ .error (.apiError m)) := by
  refine ⟨fun url m => rfl, rfl, fun m h => ?_⟩
  simp [request_outcome, tryBody, exceptClauses] at h

/-- C7, counterexample: the claim says listing tags targets `/tag`, but
`list_tags` requests `/tags` (api.py line 151). -/
theorem c7_list_tags_counterexample :
    (runOp "http://h" .list_tags).url = "http://h/api/v1/tags"
    ∧ (runOp "http://h" .list_tags).url ≠ "http://h/api/v1/tag" :=
  ⟨by decide, by decide⟩

/-- C7, amended: every client operation addresses exactly the resource paths
of spec section 6 under the base path `/api/v1`, except that listing tags
targets `/tags` rather than `/tag`; individual tag operations target
`/tag/` followed by the uuid as claimed. -/
theorem c7_amended_resource_paths (u uuid : String) (op : ClientOp) :
    (runOp u op).url = pyRstripSlash u ++ "/api/v1" ++ specResourcePath op
    ∧ specResourcePath .list_tags = "/tags"
    ∧ specResourcePath (.get_tag uuid none false) = "/tag/" ++ uuid
    ∧ specResourcePath (.update_tag uuid []) = "/tag/" ++ uuid
    ∧ specResourcePath (.delete_tag uuid) = "/tag/" ++ uuid := by
  refine ⟨?_, rfl, rfl, rfl, rfl⟩
  cases op <;> simp [runOp, mkReq, buildUrl, specResourcePath]

/-- C8: on a successful non-JSON response, `_request` returns
`await resp.text()` — the body decoded as a Python `str` — never a `bytes`
object, so `watch_favicon` returns a `str`, contradicting the claim (and the
annotation `-> bytes` on api.py line 143). -/
theorem c8_favicon_returns_str_not_bytes :
    runClientOp "http://h" (.watch_favicon "abc")
        (.response { status := 200, contentType := "image/x-icon", body := "FAVICONOCTETS" })
      = .ok (.textVal "FAVICONOCTETS")
    ∧ (∀ b, Decoded.textVal "FAVICONOCTETS" ≠ .bytesVal b) :=
  ⟨by decide, fun b h => Decoded.noConfusion h⟩

/-- C10: a client constructed from `u` and a client constructed from `u` with
trailing slash characters appended build identical requests for every
operation, because the base URL is normalised by stripping trailing slashes
at construction; the URL is always the normalised base followed directly by
`/api/v1` and the resource path. -/
theorem c10_trailing_slash_normalisation (u : String) (n : Nat) (op : ClientOp) :
    runOp (u ++ slashes n) op = runOp u op
    ∧ pyRstripSlash (u ++ slashes n) = pyRstripSlash u
    ∧ (runOp u op).url = pyRstripSlash u ++ "/api/v1" ++ specResourcePath op := by
  have h := pyRstripSlash_append_slashes u n
  refine ⟨?_, h, ?_⟩
  · cases op <;> simp [runOp, mkReq, buildUrl, h]
  · cases op <;> simp [runOp, mkReq, buildUrl, specResourcePath]

/-- C3: the snapshot is replaced atomically as a whole on every poll: when
any fetch of the round fails, the refresh keeps the previous snapshot
untouched and only records the failure; when the round succeeds, the
installed snapshot has all four components (watches, tags, systeminfo,
notifications) from that same fetch round — a reader never observes a mix of
old watches with new system info. -/
theorem c3_snapshot_replaced_atomically (st : CoordState) (r : FetchRound) :
    (∀ e, async_update_data r = .error e →
        (coordinator_refresh st r).data = st.data
        ∧ (coordinator_refresh st r).last_update_success = false)
    ∧ (∀ s, async_update_data r = .ok s →
        coordinator_refresh st r = { data := some s, last_update_success := true }
        ∧ r.watches = .ok s.watches ∧ r.tags = .ok s.tags
        ∧ r.systeminfo = .ok s.systeminfo ∧ r.notifications = .ok s.notifications) := by
  constructor
  · intro e he
    constructor <;> simp [coordinator_refresh, he]
  · intro s hs
    have h4 := (async_update_data_ok_iff r s).mp hs
    exact ⟨by simp [coordinator_refresh, hs], h4.1, h4.2.1, h4.2.2.1, h4.2.2.2⟩

/-- Witness for C3: a failed round keeps the old snapshot and clears the
success flag; a successful round installs exactly the snapshot of that round. -/
theorem c3_snapshot_replaced_atomically_witness :
    ((coordinator_refresh { data := some oldSnap, last_update_success := true } failRound).data
        = some oldSnap
      ∧ (coordinator_refresh { data := some oldSnap, last_update_success := true } failRound).last_update_success
        = false)
    ∧ coordinator_refresh { data := some oldSnap, last_update_success := true } okRound
        = { data := some okSnap, last_update_success := true } :=
  ⟨(c3_snapshot_replaced_atomically { data := some oldSnap, last_update_success := true } failRound).1
      (.updateFailed "Error communicating with API: boom") (by decide),
   ((c3_snapshot_replaced_atomically { data := some oldSnap, last_update_success := true } okRound).2
      okSnap (by decide)).1⟩

/-- C4: when the first fetch at setup fails, `async_setup_entry` aborts at
`async_config_entry_first_refresh` (line 111) before any entity platform is
forwarded, before the entry data is stored and before services are
registered: the world stays in its initial state, with no snapshot. -/
theorem c4_failed_first_fetch_aborts_setup (r : FetchRound) (e : UpdateError)
    (h : async_update_data r = .error e) :
    async_setup_entry initialWorld r = .notReady initialWorld
    ∧ initialWorld.entitiesCreated = false
    ∧ initialWorld.storedEntry = false
    ∧ initialWorld.servicesRegistered = false
    ∧ initialWorld.coordData = none := by
  refine ⟨?_, rfl, rfl, rfl, rfl⟩
  simp [async_setup_entry, coordinator_refresh, h]

/-- Witness for C4 at a first round failing with a connection error. -/
theorem c4_failed_first_fetch_aborts_setup_witness :
    async_setup_entry initialWorld connRefusedRound = .notReady initialWorld
    ∧ initialWorld.entitiesCreated = false
    ∧ initialWorld.storedEntry = false
    ∧ initialWorld.servicesRegistered = false
    ∧ initialWorld.coordData = none :=
  c4_failed_first_fetch_aborts_setup connRefusedRound
    (.updateFailed "Error communicating with API: Connection error: Connection refused")
    (by decide)

/-- C5, counterexample: the claim covers every mutating service call, but
`handle_recheck_watch` — which asks the server to recheck a watch via
`get_watch(uuid, recheck=True)` — requests no coordinator refresh even when
its client call succeeds (`__init__.py` lines 164-169). -/
theorem c5_recheck_no_refresh_counterexample :
    handle_recheck_watch "http://h" [("uuid", .str "abc")] (.ok (.jsonVal "w")) false
      = [.clientCall { method := "GET", url := "http://h/api/v1/watch/abc",
                       params := [("recheck", "true")], body := .empty }]
    ∧ SvcAction.requestRefresh ∉
        handle_recheck_watch "http://h" [("uuid", .str "abc")] (.ok (.jsonVal "w")) false :=
  ⟨by decide, by decide⟩

/-- C5, amended: every write service handler except `handle_recheck_watch`
and `handle_recheck_tag` requests a coordinator refresh after its client
write succeeds, and no handler behaves differently when the requested refresh
later fails (the write stands); the two recheck handlers perform their client
call without requesting a refresh.  In particular `create_watch` with body
url https://example.com issues POST (base)/api/v1/watch with exactly that
JSON body and then requests the refresh. -/
theorem c5_amended_write_then_refresh (base : String) (d : CallData)
    (urls : List String) (v : Decoded) (res : Except PyException Decoded) :
    (handle_create_watch base [("url", .str "https://example.com")] (.ok v) false
      = [.clientCall { method := "POST", url := pyRstripSlash base ++ "/api/v1/watch",
                       params := [], body := .json [("url", .str "https://example.com")] },
         .requestRefresh])
    ∧ SvcAction.requestRefresh ∈ handle_create_watch base d (.ok v) false
    ∧ SvcAction.requestRefresh ∈ handle_delete_watch base d (.ok v) false
    ∧ SvcAction.requestRefresh ∈ handle_update_watch base d (.ok v) false
    ∧ SvcAction.requestRefresh ∈ handle_pause_watch base d (.ok v) false
    ∧ SvcAction.requestRefresh ∈ handle_unpause_watch base d (.ok v) false
    ∧ SvcAction.requestRefresh ∈ handle_mute_watch base d (.ok v) false
    ∧ SvcAction.requestRefresh ∈ handle_unmute_watch base d (.ok v) false
    ∧ SvcAction.requestRefresh ∈ handle_create_tag base d (.ok v) false
    ∧ SvcAction.requestRefresh ∈ handle_delete_tag base d (.ok v) false
    ∧ SvcAction.requestRefresh ∈ handle_update_tag base d (.ok v) false
    ∧ SvcAction.requestRefresh ∈ handle_mute_tag base d (.ok v) false
    ∧ SvcAction.requestRefresh ∈ handle_unmute_tag base d (.ok v) false
    ∧ SvcAction.requestRefresh ∈ handle_bulk_import base d (.ok v) false
    ∧ SvcAction.requestRefresh ∈ handle_add_notifications base urls (.ok v) false
    ∧ SvcAction.requestRefresh ∈ handle_replace_notifications base urls (.ok v) false
    ∧ SvcAction.requestRefresh ∈ handle_delete_notifications base urls (.ok v) false
    ∧ SvcAction.requestRefresh ∉ handle_recheck_watch base d (.ok v) false
    ∧ SvcAction.requestRefresh ∉ handle_recheck_tag base d (.ok v) false
    ∧ handle_create_watch base d res true = handle_create_watch base d res false
    ∧ handle_delete_watch base d res true = handle_delete_watch base d res false
    ∧ handle_update_watch base d res true = handle_update_watch base d res false
    ∧ handle_recheck_watch base d res true = handle_recheck_watch base d res false
    ∧ handle_pause_watch base d res true = handle_pause_watch base d res false
    ∧ handle_unpause_watch base d res true = handle_unpause_watch base d res false
    ∧ handle_mute_watch base d res true = handle_mute_watch base d res false
    ∧ handle_unmute_watch base d res true = handle_unmute_watch base d res false
    ∧ handle_create_tag base d res true = handle_create_tag base d res false
    ∧ handle_delete_tag base d res true = handle_delete_tag base d res false
    ∧ handle_update_tag base d res true = handle_update_tag base d res false
    ∧ handle_recheck_tag base d res true = handle_recheck_tag base d res false
    ∧ handle_mute_tag base d res true = handle_mute_tag base d res false
    ∧ handle_unmute_tag base d res true = handle_unmute_tag base d res false
    ∧ handle_bulk_import base d res true = handle_bulk_import base d res false
    ∧ handle_add_notifications base urls res true = handle_add_notifications base urls res false
    ∧ handle_replace_notifications base urls res true = handle_replace_notifications base urls res false
    ∧ handle_delete_notifications base urls res true = handle_delete_notifications base urls res false := by
  refine ⟨?_, ?_, ?_, ?_, ?_, ?_, ?_, ?_, ?_, ?_, ?_, ?_, ?_, ?_, ?_, ?_, ?_, ?_, ?_,
    rfl, rfl, rfl, rfl, rfl, rfl, rfl, rfl, rfl, rfl, rfl, rfl, rfl, rfl, rfl, rfl, rfl, rfl⟩ <;>
    simp [handle_create_watch, handle_delete_watch, handle_update_watch,
      handle_pause_watch, handle_unpause_watch, handle_mute_watch, handle_unmute_watch,
      handle_create_tag, handle_delete_tag, handle_update_tag,
      handle_mute_tag, handle_unmute_tag, handle_bulk_import,
      handle_add_notifications, handle_replace_notifications, handle_delete_notifications,
      handle_recheck_watch, handle_recheck_tag,
      writeActions, noRefreshActions, createWatchPayload, createTagPayload,
      getData, hasKey, List.lookup, runOp, mkReq, buildUrl, String.append_assoc]

/-- C6: a get_diff service call with uuid abc, from_timestamp previous,
to_timestamp latest and no format or word_diff specified builds the request
against /watch/abc/difference/previous/latest with query parameters
format=htmlcolor and word_diff=false, and fires the diff event on success. -/
theorem c6_get_diff_defaults (base : String) (v : Decoded) :
    handle_get_diff base
        [("uuid", .str "abc"), ("from_timestamp", .str "previous"), ("to_timestamp", .str "latest")]
        (.ok v) false
      = [.clientCall
           { method := "GET",
             url := pyRstripSlash base ++ "/api/v1/watch/abc/difference/previous/latest",
             params := [("format", "htmlcolor"), ("word_diff", "false"), ("no_markup", "false"),
               ("type", "diffLines"), ("changesOnly", "true"), ("ignoreWhitespace", "false"),
               ("removed", "true"), ("added", "true"), ("replaced", "true")],
             body := .empty },
         .fireEvent "changedetection_diff_received"]
    ∧ ("format", "htmlcolor") ∈ (runOp base (.watch_diff "abc" "previous" "latest"
        "htmlcolor" "false" "false" "diffLines" "true" "false" "true" "true" "true")).params
    ∧ ("word_diff", "false") ∈ (runOp base (.watch_diff "abc" "previous" "latest"
        "htmlcolor" "false" "false" "diffLines" "true" "false" "true" "true" "true")).params := by
  refine ⟨?_, ?_, ?_⟩ <;>
    simp [handle_get_diff, eventActions, getStr, getStrD, jvalTruthy,
      List.lookup, runOp, mkReq, buildUrl, String.append_assoc]

/-- C9: `get_watch` sends the paused query parameter exactly when the paused
argument is the string paused or unpaused, and the muted parameter exactly
when the muted argument is muted or unmuted; any other value, including None,
omits the parameter entirely; `get_tag` filters its muted argument the same
way. -/
theorem c9_enum_param_filtering (u uuid : String) (recheck : Bool)
    (pausedArg mutedArg tagMuted : Option String) :
    (List.lookup "paused" (runOp u (.get_watch uuid recheck pausedArg mutedArg)).params
      = if pausedArg = some "paused" ∨ pausedArg = some "unpaused"
        then some (pausedArg.getD "") else none)
    ∧ (List.lookup "muted" (runOp u (.get_watch uuid recheck pausedArg mutedArg)).params
      = if mutedArg = some "muted" ∨ mutedArg = some "unmuted"
        then some (mutedArg.getD "") else none)
    ∧ (List.lookup "muted" (runOp u (.get_tag uuid tagMuted recheck)).params
      = if tagMuted = some "muted" ∨ tagMuted = some "unmuted"
        then some (tagMuted.getD "") else none) := by
  refine ⟨?_, ?_, ?_⟩ <;>
  · by_cases hr : recheck <;>
    by_cases hp : pausedArg = some "paused" ∨ pausedArg = some "unpaused" <;>
    by_cases hm : mutedArg = some "muted" ∨ mutedArg = some "unmuted" <;>
    by_cases ht : tagMuted = some "muted" ∨ tagMuted = some "unmuted" <;>
    simp [runOp, mkReq, hr, hp, hm, ht, List.lookup]
